import Mathlib

/-!
Verification of the GarageQTPi device state and actuation engine.

The definitions below are a shallow embedding of `src/lib/garage.py` and
`src/main.py`.  Python strings become Lean `String`s, GPIO pin levels and
pin numbers become `Nat` (the Python code compares `GPIO.input(pin)` with
an `int` mode), the mutable `self._state` field of `TwoSwitchGarageDoor`
becomes explicit state passing (`Option String`, `none` for Python's
`None`), and every hardware side effect (a `GPIO.output` call or a
`logging` call) becomes an element of an explicit trace returned by the
function.
-/

namespace GarageQTPi

/-- Pulse / settle duration in milliseconds: `SHORT_WAIT = .2  # S (200ms)`. -/
def SHORT_WAIT : Nat := 200

/-- Polarity mode, from `int(config.get('state_mode') == 'normally_closed')`:
`1` for normally-closed wiring, `0` otherwise. -/
def modeOfStateMode (state_mode : Option String) : Nat :=
  if state_mode = some "normally_closed" then 1 else 0

/-- `MotionSensor.state`: compare the pin reading with the configured mode;
equal means `'nothing'`, different means `'detection'`. -/
def MotionSensor.state (mode read : Nat) : String :=
  if read = mode then "nothing" else "detection"

/-- `GarageDoor.state` (single-sensor door): compare the pin reading with the
configured mode; equal means `'closed'`, different means `'open'`. -/
def GarageDoor.state (mode read : Nat) : String :=
  if read = mode then "closed" else "open"

/-- `TwoSwitchGarageDoor.state` (dual-sensor door): resolve from the two pin
readings and the stored previous state `self._state`.  The function returns
the value assigned to `self._state` (the Python property returns
`self._state` after the conditional chain, so the returned value and the new
stored value coincide; in the final fallthrough no assignment happens and the
previous value is returned unchanged). -/
def TwoSwitchGarageDoor.state (mode : Nat) (st : Option String)
    (readStatePin readOpenPin : Nat) : Option String :=
  let closed_state : Bool := readStatePin = mode
  let open_state : Bool := readOpenPin = mode
  if closed_state then some "closed"
  else if open_state then some "open"
  else if st = some "closed" then some "opening"
  else if st = some "open" then some "closing"
  else st

/-- Run the dual-sensor resolver over a sequence of
(state-pin reading, open-pin reading) pairs, recording each resolved state. -/
def TwoSwitchGarageDoor.run (mode : Nat) (st : Option String) :
    List (Nat × Nat) → List (Option String)
  | [] => []
  | (rc, ro) :: rest =>
      let st2 := TwoSwitchGarageDoor.state mode st rc ro
      st2 :: TwoSwitchGarageDoor.run mode st2 rest

/-- Door configuration fields used by `GarageDoor.__init__`. -/
structure DoorConfig where
  relay_opening : Nat
  relay_closing : Nat
  relay_stop : Option Nat
  state_pin : Nat
  mode : Nat
  invert_relay : Bool
  check_state_before_command : Bool
  deriving DecidableEq

/-- A `GPIO.output` call: (milliseconds since the operation started,
pin number, level written). -/
abbrev Write := Nat × Nat × Bool

/-- `GarageDoor.__press_open`: drive the opening relay to `not invert_relay`,
sleep `SHORT_WAIT`, drive it back to `invert_relay`. -/
def press_open (c : DoorConfig) : List Write :=
  [(0, c.relay_opening, !c.invert_relay), (SHORT_WAIT, c.relay_opening, c.invert_relay)]

/-- `GarageDoor.__press_close`: drive the closing relay to `not invert_relay`,
sleep `SHORT_WAIT`, drive it back to `invert_relay`. -/
def press_close (c : DoorConfig) : List Write :=
  [(0, c.relay_closing, !c.invert_relay), (SHORT_WAIT, c.relay_closing, c.invert_relay)]

/-- `GarageDoor.__press_stop`: pulse the stop relay when one is configured;
otherwise perform no write and log `"STOP not setup"`.  Returns the write
trace and the log trace. -/
def press_stop (c : DoorConfig) : List Write × List String :=
  match c.relay_stop with
  | some p => ([(0, p, !c.invert_relay), (SHORT_WAIT, p, c.invert_relay)], [])
  | none => ([], ["STOP not setup"])

/-- `GarageDoor.open` for the single-sensor door: Python's
`if not self.check_state_before_command or self.state == 'closed'` evaluates
`self.state` only when the flag is set (short-circuit `or`). -/
def GarageDoor.openCmd (c : DoorConfig) (read : Nat) : List Write :=
  if !c.check_state_before_command then press_open c
  else if GarageDoor.state c.mode read = "closed" then press_open c
  else []

/-- `GarageDoor.close` for the single-sensor door. -/
def GarageDoor.closeCmd (c : DoorConfig) (read : Nat) : List Write :=
  if !c.check_state_before_command then press_close c
  else if GarageDoor.state c.mode read = "open" then press_close c
  else []

/-- `GarageDoor.stop`: calls `self.__press_stop()` unconditionally; it takes
no pin reading and consults neither the flag nor the resolved state. -/
def GarageDoor.stopCmd (c : DoorConfig) : List Write × List String :=
  press_stop c

/-- `open()` as inherited by `TwoSwitchGarageDoor`: reading `self.state`
resolves through the dual-sensor resolver, which also updates the stored
previous state.  Returns the new stored state and the write trace. -/
def TwoSwitchGarageDoor.openCmd (c : DoorConfig) (st : Option String)
    (rc ro : Nat) : Option String × List Write :=
  if !c.check_state_before_command then (st, press_open c)
  else
    let st2 := TwoSwitchGarageDoor.state c.mode st rc ro
    if st2 = some "closed" then (st2, press_open c) else (st2, [])

/-- `close()` as inherited by `TwoSwitchGarageDoor`. -/
def TwoSwitchGarageDoor.closeCmd (c : DoorConfig) (st : Option String)
    (rc ro : Nat) : Option String × List Write :=
  if !c.check_state_before_command then (st, press_close c)
  else
    let st2 := TwoSwitchGarageDoor.state c.mode st rc ro
    if st2 = some "open" then (st2, press_close c) else (st2, [])

/-- Apply a write trace to a pin-level map. -/
def applyWrites (pins : Nat → Bool) : List Write → (Nat → Bool)
  | [] => pins
  | (_, p, v) :: rest => applyWrites (fun q => if q = p then v else pins q) rest

/-- Relay pin levels set up by `GarageDoor.__init__`:
`GPIO.setup(pin, GPIO.OUT, initial=self.invert_relay)` for each relay pin. -/
def isRelayPin (c : DoorConfig) (p : Nat) : Prop :=
  p = c.relay_opening ∨ p = c.relay_closing ∨ c.relay_stop = some p

/-- `execute_command` from `src/main.py`: dispatch one of the three commands
or log `"Invalid command: ..."`.  The result is the door action selected
(`none` when the command is unrecognized) and the log trace. -/
inductive DoorAction
  | openA
  | closeA
  | stopA
  deriving DecidableEq

/-- `execute_command(door, command)`: logs the attempt, then matches the
command string. -/
def execute_command (doorName command : String) : Option DoorAction × List String :=
  let lead := "Executing command " ++ command ++ " for door " ++ doorName
  if command = "OPEN" then (some DoorAction.openA, [lead])
  else if command = "CLOSE" then (some DoorAction.closeA, [lead])
  else if command = "STOP" then (some DoorAction.stopA, [lead])
  else (none, [lead, "Invalid command: " ++ command])

/-- The whole dispatch path for a dual-sensor door: `execute_command`
followed by the selected door method.  Returns the stored state after the
call, the write trace, and the log trace. -/
def dispatch (c : DoorConfig) (doorName : String) (st : Option String)
    (rc ro : Nat) (command : String) : Option String × List Write × List String :=
  match execute_command doorName command with
  | (some DoorAction.openA, logs) =>
      let r := TwoSwitchGarageDoor.openCmd c st rc ro
      (r.1, r.2, logs)
  | (some DoorAction.closeA, logs) =>
      let r := TwoSwitchGarageDoor.closeCmd c st rc ro
      (r.1, r.2, logs)
  | (some DoorAction.stopA, logs) =>
      let r := press_stop c
      (st, r.1, logs ++ r.2)
  | (none, logs) => (st, [], logs)

/-- Modelled from the spec: the `EventHook` class (its source file
`lib/eventhook.py` is imported by `lib/garage.py` but is not under `src/`).
Per the spec (§4.5), `fire` invokes every registered handler in registration
order, on the calling thread, passing the value.  Handlers are represented by
identifiers; an invocation is the pair (handler, delivered value). -/
def EventHook.fire (handlers : List Nat) (value : String) : List (Nat × String) :=
  handlers.map (fun h => (h, value))

/-- `__stateChanged` fires the hook once per settled edge with the freshly
resolved state (`self.onStateChange.fire(self.state)`), with no
deduplication; over a list of settled-edge resolved states the invocations
concatenate in edge order. -/
def deliverEdges (handlers : List Nat) : List String → List (Nat × String)
  | [] => []
  | v :: vs => EventHook.fire handlers v ++ deliverEdges handlers vs

/-- Bounce-suppression window in milliseconds: `bouncetime=300` passed to
`GPIO.add_event_detect`. -/
def W1 : Nat := 300

/-- Settle delay in milliseconds: the `time.sleep(SHORT_WAIT)` in
`__stateChanged` before the state is re-read. -/
def W2 : Nat := SHORT_WAIT

/-- Modelled from the spec: the bounce-suppression stage of the debounced
edge watcher (§4.2).  The suppression itself is performed by the GPIO
library's `bouncetime` mechanism, whose code is not under `src/`; per the
spec, a raw edge arriving inside the window opened by an earlier accepted
edge is ignored.  Edge times are milliseconds, listed in arrival order;
`last` is the time of the most recent accepted edge. -/
def debounceAux : List Nat → Nat → List Nat
  | [], _ => []
  | t :: ts, last =>
      if t < last + W1 then debounceAux ts last else t :: debounceAux ts t

/-- Accepted (settled) edges of a raw edge sequence: the first raw edge is
accepted and opens the suppression window. -/
def debounce : List Nat → List Nat
  | [] => []
  | t :: ts => t :: debounceAux ts t

/-- Settled callback deliveries: per the spec (§4.2), once the window
elapses the watcher waits the settle delay `W2` and then invokes the
callback with the pin value re-read at delivery time (`pinAt` gives the pin
level as a function of time), not with the edge's instantaneous value. -/
def settledCallbacks (pinAt : Nat → Bool) (edges : List Nat) : List (Nat × Bool) :=
  (debounce edges).map (fun t => (t + W1 + W2, pinAt (t + W1 + W2)))

/-- C1: the dual-sensor resolver follows the first-match order: closed sensor
asserted gives `'closed'`; else open sensor asserted gives `'open'`; else a
previous state of `'closed'` becomes `'opening'`; else a previous state of
`'open'` becomes `'closing'`; else the previous stored state is returned
unchanged (so with previous state unknown it stays unknown, without raising);
in particular with previous state unknown and the closed sensor asserted the
resolution is `'closed'`.  The returned value is also the new stored value,
so the stored field is updated to the returned value in the first four cases
and left unchanged in the fifth. -/
theorem C1_dual_resolver_order (mode : Nat) (st : Option String) (rc ro : Nat) :
    (rc = mode → TwoSwitchGarageDoor.state mode st rc ro = some "closed") ∧
    (rc ≠ mode → ro = mode → TwoSwitchGarageDoor.state mode st rc ro = some "open") ∧
    (rc ≠ mode → ro ≠ mode → st = some "closed" →
      TwoSwitchGarageDoor.state mode st rc ro = some "opening") ∧
    (rc ≠ mode → ro ≠ mode → st = some "open" →
      TwoSwitchGarageDoor.state mode st rc ro = some "closing") ∧
    (rc ≠ mode → ro ≠ mode → st ≠ some "closed" → st ≠ some "open" →
      TwoSwitchGarageDoor.state mode st rc ro = st) ∧
    (st = none → rc = mode → TwoSwitchGarageDoor.state mode st rc ro = some "closed") := by
  unfold TwoSwitchGarageDoor.state
  refine ⟨?_, ?_, ?_, ?_, ?_, ?_⟩ <;> intros <;> simp_all

/-- Witness for C1 at concrete inputs: first resolution from unknown previous
state with the closed sensor asserted yields `'closed'`; from `'closed'` with
neither sensor asserted the resolution is `'opening'`; from `'opening'` with
neither sensor asserted the previous state is returned unchanged. -/
theorem C1_dual_resolver_order_witness :
    TwoSwitchGarageDoor.state 1 none 1 0 = some "closed" ∧
    TwoSwitchGarageDoor.state 1 (some "closed") 0 0 = some "opening" ∧
    TwoSwitchGarageDoor.state 1 (some "opening") 0 0 = some "opening" :=
  ⟨(C1_dual_resolver_order 1 none 1 0).2.2.2.2.2 rfl rfl,
   (C1_dual_resolver_order 1 (some "closed") 0 0).2.2.1
     (by decide) (by decide) rfl,
   (C1_dual_resolver_order 1 (some "opening") 0 0).2.2.2.2.1
     (by decide) (by decide) (by decide) (by decide)⟩

/-- C3: the single-sensor door resolver and the motion-sensor resolver are
functions of the one reading and the polarity mode alone (they take no other
argument); over the four (mode, read) combinations with mode 1 encoding
normally-closed wiring and 0 normally-open, the door state is `'closed'`
exactly when the reading equals the mode and `'open'` otherwise, and the
motion state is `'nothing'` exactly when the reading equals the mode and
`'detection'` otherwise. -/
theorem C3_polarity_table :
    GarageDoor.state (modeOfStateMode (some "normally_closed")) 1 = "closed" ∧
    GarageDoor.state (modeOfStateMode (some "normally_closed")) 0 = "open" ∧
    GarageDoor.state (modeOfStateMode (some "normally_open")) 0 = "closed" ∧
    GarageDoor.state (modeOfStateMode (some "normally_open")) 1 = "open" ∧
    MotionSensor.state (modeOfStateMode (some "normally_closed")) 1 = "nothing" ∧
    MotionSensor.state (modeOfStateMode (some "normally_closed")) 0 = "detection" ∧
    MotionSensor.state (modeOfStateMode (some "normally_open")) 0 = "nothing" ∧
    MotionSensor.state (modeOfStateMode (some "normally_open")) 1 = "detection" ∧
    modeOfStateMode (some "normally_closed") = 1 ∧
    modeOfStateMode (some "normally_open") = 0 := by
  decide

/-- C6: with no stop relay configured (`relay_stop` is `None`), `stop()`
performs no write to any pin, and reports the missing configuration by
logging `"STOP not setup"`; being a total function of the configuration, it
raises nothing. -/
theorem C6_stop_unconfigured (c : DoorConfig) (h : c.relay_stop = none) :
    (GarageDoor.stopCmd c).1 = [] ∧ (GarageDoor.stopCmd c).2 = ["STOP not setup"] := by
  unfold GarageDoor.stopCmd press_stop
  rw [h]
  exact ⟨rfl, rfl⟩

/-- Witness for C6: a concrete door with no stop relay. -/
theorem C6_stop_unconfigured_witness :
    (GarageDoor.stopCmd (DoorConfig.mk 5 6 none 8 1 false true)).1 = [] ∧
    (GarageDoor.stopCmd (DoorConfig.mk 5 6 none 8 1 false true)).2 = ["STOP not setup"] :=
  C6_stop_unconfigured (DoorConfig.mk 5 6 none 8 1 false true) rfl

/-- C10: `stop()` is never gated by the precondition flag: it takes no pin
reading at all (its only argument is the configuration), with a stop relay
configured it always produces the stop pulse, and its result is unchanged
under any change of the configuration that keeps `relay_stop` and
`invert_relay` fixed — in particular any change of
`check_state_before_command`, of the polarity mode, or of the state pin. -/
theorem C10_stop_ungated (c : DoorConfig) (p : Nat) :
    (c.relay_stop = some p →
      (GarageDoor.stopCmd c).1 =
        [(0, p, !c.invert_relay), (SHORT_WAIT, p, c.invert_relay)]) ∧
    (∀ c2 : DoorConfig, c2.relay_stop = c.relay_stop →
      c2.invert_relay = c.invert_relay →
      GarageDoor.stopCmd c2 = GarageDoor.stopCmd c) := by
  constructor
  · intro h
    unfold GarageDoor.stopCmd press_stop
    rw [h]
  · intro c2 hs hi
    unfold GarageDoor.stopCmd press_stop
    rw [hs, hi]

/-- Witness for C10: a concrete door with a stop relay on pin 7 pulses it,
and flipping the precondition flag leaves `stop()` unchanged. -/
theorem C10_stop_ungated_witness :
    (GarageDoor.stopCmd (DoorConfig.mk 5 6 (some 7) 8 1 false true)).1 =
      [(0, 7, true), (SHORT_WAIT, 7, false)] ∧
    GarageDoor.stopCmd (DoorConfig.mk 5 6 (some 7) 8 0 false false) =
      GarageDoor.stopCmd (DoorConfig.mk 5 6 (some 7) 8 1 false true) :=
  ⟨(C10_stop_ungated (DoorConfig.mk 5 6 (some 7) 8 1 false true) 7).1 rfl,
   (C10_stop_ungated (DoorConfig.mk 5 6 (some 7) 8 1 false true) 7).2
     (DoorConfig.mk 5 6 (some 7) 8 0 false false) rfl rfl⟩

/-- C2: with `check_state_before_command` enabled, `open()` writes nothing
unless the currently resolved state is exactly `'closed'` and `close()`
writes nothing unless it is exactly `'open'` — in particular the dual-sensor
transients `'opening'` and `'closing'` (being neither) are silently dropped;
with the flag disabled both commands always produce their relay pulse.
Stated for both the single-sensor door and the dual-sensor door. -/
theorem C2_precondition_gating (c : DoorConfig) (st : Option String)
    (rc ro read : Nat) :
    (c.check_state_before_command = true →
      ((TwoSwitchGarageDoor.state c.mode st rc ro ≠ some "closed" →
         (TwoSwitchGarageDoor.openCmd c st rc ro).2 = []) ∧
       (TwoSwitchGarageDoor.state c.mode st rc ro ≠ some "open" →
         (TwoSwitchGarageDoor.closeCmd c st rc ro).2 = []) ∧
       (GarageDoor.state c.mode read ≠ "closed" → GarageDoor.openCmd c read = []) ∧
       (GarageDoor.state c.mode read ≠ "open" → GarageDoor.closeCmd c read = []))) ∧
    (c.check_state_before_command = false →
      ((TwoSwitchGarageDoor.openCmd c st rc ro).2 = press_open c ∧
       (TwoSwitchGarageDoor.closeCmd c st rc ro).2 = press_close c ∧
       GarageDoor.openCmd c read = press_open c ∧
       GarageDoor.closeCmd c read = press_close c)) := by
  constructor
  · intro hflag
    refine ⟨?_, ?_, ?_, ?_⟩ <;> intro hne <;>
      simp [TwoSwitchGarageDoor.openCmd, TwoSwitchGarageDoor.closeCmd,
            GarageDoor.openCmd, GarageDoor.closeCmd, hflag, hne]
  · intro hflag
    simp [TwoSwitchGarageDoor.openCmd, TwoSwitchGarageDoor.closeCmd,
          GarageDoor.openCmd, GarageDoor.closeCmd, hflag]

/-- Witness for C2: a dual-sensor door resolved to the transient `'opening'`
(previous state `'opening'`, neither sensor asserted) drops `open()` with the
flag enabled; with the flag disabled the same door pulses the opening
relay. -/
theorem C2_precondition_gating_witness :
    (TwoSwitchGarageDoor.openCmd (DoorConfig.mk 5 6 (some 7) 8 1 false true)
      (some "opening") 0 0).2 = [] ∧
    (TwoSwitchGarageDoor.openCmd (DoorConfig.mk 5 6 (some 7) 8 1 false false)
      (some "opening") 0 0).2 =
      press_open (DoorConfig.mk 5 6 (some 7) 8 1 false false) :=
  ⟨((C2_precondition_gating (DoorConfig.mk 5 6 (some 7) 8 1 false true)
      (some "opening") 0 0 0).1 rfl).1 (by decide),
   ((C2_precondition_gating (DoorConfig.mk 5 6 (some 7) 8 1 false false)
      (some "opening") 0 0 0).2 rfl).1⟩

/-- C5: each pulse writes the target relay pin to the active level
`not invert_relay` at time 0, holds for `SHORT_WAIT = 200` ms, then writes
the inactive level `invert_relay`; and starting from pin levels where every
relay pin sits at `invert_relay` (the level `__init__` configures with
`initial=self.invert_relay`), after any completed pulse every relay pin is
again at `invert_relay`. -/
theorem C5_relay_pulse (c : DoorConfig) (f : Nat → Bool) (p : Nat) :
    press_open c = [(0, c.relay_opening, !c.invert_relay),
                    (SHORT_WAIT, c.relay_opening, c.invert_relay)] ∧
    press_close c = [(0, c.relay_closing, !c.invert_relay),
                     (SHORT_WAIT, c.relay_closing, c.invert_relay)] ∧
    (c.relay_stop = some p →
      (press_stop c).1 = [(0, p, !c.invert_relay), (SHORT_WAIT, p, c.invert_relay)]) ∧
    SHORT_WAIT = 200 ∧
    ((∀ q, isRelayPin c q → f q = c.invert_relay) →
      ∀ q, isRelayPin c q →
        applyWrites f (press_open c) q = c.invert_relay ∧
        applyWrites f (press_close c) q = c.invert_relay ∧
        applyWrites f (press_stop c).1 q = c.invert_relay) := by
  refine ⟨rfl, rfl, ?_, rfl, ?_⟩
  · intro h
    unfold press_stop
    rw [h]
  · intro hinit q hq
    refine ⟨?_, ?_, ?_⟩
    · simp only [press_open, applyWrites]
      by_cases hq2 : q = c.relay_opening
      · simp [hq2]
      · simp [hq2, hinit q hq]
    · simp only [press_close, applyWrites]
      by_cases hq2 : q = c.relay_closing
      · simp [hq2]
      · simp [hq2, hinit q hq]
    · cases hrs : c.relay_stop with
      | none => simpa [press_stop, hrs, applyWrites] using hinit q hq
      | some s =>
        simp only [press_stop, hrs, applyWrites]
        by_cases hq2 : q = s
        · simp [hq2]
        · simp [hq2, hinit q hq]

/-- Witness for C5: a concrete door with relays on pins 5, 6 and 7 and
`invert_relay = false`, all relay pins initially low: the stop pulse trace is
explicit, and after an opening pulse the opening relay pin is low again. -/
theorem C5_relay_pulse_witness :
    (press_stop (DoorConfig.mk 5 6 (some 7) 8 1 false true)).1 =
      [(0, 7, true), (SHORT_WAIT, 7, false)] ∧
    applyWrites (fun _ => false)
      (press_open (DoorConfig.mk 5 6 (some 7) 8 1 false true)) 5 = false :=
  ⟨(C5_relay_pulse (DoorConfig.mk 5 6 (some 7) 8 1 false true)
      (fun _ => false) 7).2.2.1 rfl,
   ((C5_relay_pulse (DoorConfig.mk 5 6 (some 7) 8 1 false true)
      (fun _ => false) 7).2.2.2.2 (fun _ _ => rfl) 5 (Or.inl rfl)).1⟩

/-- C9: a command string other than `"OPEN"`, `"CLOSE"`, `"STOP"` is
rejected by `execute_command`: no door action is selected, the rejection is
logged (`"Invalid command: ..."`), and through the dispatch path the stored
door state is unchanged and no pin is written; the dispatcher is a total
function, so no exception propagates. -/
theorem C9_unrecognized_command (c : DoorConfig) (doorName : String)
    (st : Option String) (rc ro : Nat) (command : String)
    (h1 : command ≠ "OPEN") (h2 : command ≠ "CLOSE") (h3 : command ≠ "STOP") :
    (execute_command doorName command).1 = none ∧
    (execute_command doorName command).2 =
      ["Executing command " ++ command ++ " for door " ++ doorName,
       "Invalid command: " ++ command] ∧
    (dispatch c doorName st rc ro command).1 = st ∧
    (dispatch c doorName st rc ro command).2.1 = [] := by
  have he : execute_command doorName command =
      (none, ["Executing command " ++ command ++ " for door " ++ doorName,
              "Invalid command: " ++ command]) := by
    unfold execute_command
    simp [h1, h2, h3]
  refine ⟨by rw [he], by rw [he], ?_, ?_⟩ <;> · unfold dispatch; rw [he]

/-- Witness for C9: the command `"FOO"` on a concrete dual-sensor door. -/
theorem C9_unrecognized_command_witness :
    (execute_command "left" "FOO").1 = none ∧
    (dispatch (DoorConfig.mk 5 6 (some 7) 8 1 false true) "left"
      (some "closed") 0 0 "FOO").2.1 = [] :=
  ⟨(C9_unrecognized_command (DoorConfig.mk 5 6 (some 7) 8 1 false true) "left"
      (some "closed") 0 0 "FOO" (by decide) (by decide) (by decide)).1,
   (C9_unrecognized_command (DoorConfig.mk 5 6 (some 7) 8 1 false true) "left"
      (some "closed") 0 0 "FOO" (by decide) (by decide) (by decide)).2.2.2⟩

/-- C7: `fire` delivers to every registered handler in registration order
(the delivered handler sequence is exactly the subscriber list), every
invocation carries the fired value, and over any sequence of settled edges
the number of invocations of a handler is the edge count times its
registration count — for a handler registered once, exactly N invocations
for N edges, independent of whether consecutive resolved states are equal:
no deduplication. -/
theorem C7_fire_no_dedup (handlers : List Nat) (states : List String)
    (h : Nat) (v : String) :
    (EventHook.fire handlers v).map Prod.fst = handlers ∧
    (EventHook.fire handlers v).map Prod.snd = List.replicate handlers.length v ∧
    (deliverEdges handlers states).countP (fun pr => pr.1 == h) =
      states.length * handlers.count h := by
  refine ⟨?_, ?_, ?_⟩
  · simp [EventHook.fire, List.map_map, Function.comp_def]
  · simp [EventHook.fire, List.map_map, Function.comp_def, List.map_const']
  · induction states with
    | nil => simp [deliverEdges]
    | cons v2 vs ih =>
      have hfire : (EventHook.fire handlers v2).countP (fun pr => pr.1 == h) =
          handlers.count h := by
        simp [EventHook.fire, List.countP_map, Function.comp_def, List.count]
      simp [deliverEdges, List.countP_append, ih, hfire, Nat.succ_mul,
        Nat.add_comm]

/-- Helper for C8: every raw edge strictly inside the suppression window of
the accepted edge at `last` is dropped. -/
theorem debounceAux_eq_nil (rest : List Nat) (last : Nat)
    (hburst : ∀ t ∈ rest, t < last + W1) : debounceAux rest last = [] := by
  induction rest with
  | nil => rfl
  | cons t ts ih =>
    unfold debounceAux
    rw [if_pos (hburst t (List.mem_cons_self t ts))]
    exact ih (fun u hu => hburst u (List.mem_cons_of_mem t hu))

/-- C8: a burst of raw edges that all arrive inside the bounce-suppression
window `W1` opened by the first edge yields exactly one settled callback;
that callback is delivered after the additional settle delay `W2`, with the
pin value re-read at delivery time `t0 + W1 + W2`, not the edge's
instantaneous value. -/
theorem C8_debounce_single_callback (pinAt : Nat → Bool) (t0 : Nat)
    (rest : List Nat) (hburst : ∀ t ∈ rest, t < t0 + W1) :
    settledCallbacks pinAt (t0 :: rest) =
      [(t0 + W1 + W2, pinAt (t0 + W1 + W2))] := by
  have hdb : debounce (t0 :: rest) = t0 :: debounceAux rest t0 := rfl
  unfold settledCallbacks
  rw [hdb, debounceAux_eq_nil rest t0 hburst]
  rfl

/-- Witness for C8: three raw edges at 0, 100 and 250 ms (all inside the
300 ms window of the first) yield the single callback at 500 ms; the pin is
low at every edge instant but high at delivery time, and the delivered value
is the delivery-time read. -/
theorem C8_debounce_single_callback_witness :
    settledCallbacks (fun n => 400 ≤ n) (0 :: [100, 250]) = [(500, true)] := by
  have hmain := C8_debounce_single_callback (fun n => 400 ≤ n) 0 [100, 250]
    (by decide)
  simpa using hmain

/-- Helper for C4: the resolved state at position `i + 1` of a run is the
one-step resolution of the state at position `i` on the reading at
position `i + 1`. -/
theorem run_get_succ (mode : Nat) (st0 : Option String) (rs : List (Nat × Nat))
    (i : Nat) (s : Option String) (rc ro : Nat)
    (hs : (TwoSwitchGarageDoor.run mode st0 rs).get? i = some s)
    (hr : rs.get? (i + 1) = some (rc, ro)) :
    (TwoSwitchGarageDoor.run mode st0 rs).get? (i + 1) =
      some (TwoSwitchGarageDoor.state mode s rc ro) := by
  induction rs generalizing st0 i with
  | nil => simp [TwoSwitchGarageDoor.run] at hs
  | cons a rest ih =>
    obtain ⟨ra, rb⟩ := a
    cases i with
    | zero =>
      simp [TwoSwitchGarageDoor.run] at hs hr ⊢
      cases rest with
      | nil => simp at hr
      | cons b rest2 =>
        obtain ⟨b1, b2⟩ := b
        simp at hr
        simp [TwoSwitchGarageDoor.run, hr.1, hr.2, hs]
    | succ n =>
      simp only [TwoSwitchGarageDoor.run, List.get?_cons_succ] at hs hr ⊢
      exact ih _ _ hs hr

/-- Helper for C4: with neither sensor asserted, the resolver maps
`'closed'` to `'opening'`, `'open'` to `'closing'`, and leaves anything else
unchanged. -/
theorem state_neither_asserted (mode : Nat) (st : Option String) (rc ro : Nat)
    (hc : rc ≠ mode) (ho : ro ≠ mode) :
    TwoSwitchGarageDoor.state mode st rc ro =
      if st = some "closed" then some "opening"
      else if st = some "open" then some "closing" else st := by
  unfold TwoSwitchGarageDoor.state
  simp [hc, ho]

/-- C4: along any run of the dual-sensor resolver, an observation with
neither sensor asserted that follows a `'closed'` resolution resolves to
`'opening'`, and one that follows an `'open'` resolution resolves to
`'closing'` — the state sequence never steps directly between `'closed'` and
`'open'` across a neither-asserted observation. -/
theorem C4_no_skip (mode : Nat) (st0 : Option String) (rs : List (Nat × Nat))
    (i : Nat) (rc ro : Nat)
    (hr : rs.get? (i + 1) = some (rc, ro)) (hc : rc ≠ mode) (ho : ro ≠ mode) :
    ((TwoSwitchGarageDoor.run mode st0 rs).get? i = some (some "closed") →
      (TwoSwitchGarageDoor.run mode st0 rs).get? (i + 1) = some (some "opening")) ∧
    ((TwoSwitchGarageDoor.run mode st0 rs).get? i = some (some "open") →
      (TwoSwitchGarageDoor.run mode st0 rs).get? (i + 1) = some (some "closing")) := by
  constructor <;> intro hs <;>
    rw [run_get_succ mode st0 rs i _ rc ro hs hr,
        state_neither_asserted mode _ rc ro hc ho] <;> simp

/-- Witness for C4: with mode 1, the reading sequence
closed-asserted, neither, open-asserted resolves to
closed, opening, open — the neither-asserted observation after `'closed'`
yields `'opening'`; symmetrically, open-asserted then neither yields
`'closing'`. -/
theorem C4_no_skip_witness :
    (TwoSwitchGarageDoor.run 1 none [(1, 0), (0, 0), (0, 1)]).get? 1 =
      some (some "opening") ∧
    (TwoSwitchGarageDoor.run 1 none [(0, 1), (0, 0)]).get? 1 =
      some (some "closing") :=
  ⟨(C4_no_skip 1 none [(1, 0), (0, 0), (0, 1)] 0 0 0 (by decide) (by decide)
      (by decide)).1 (by decide),
   (C4_no_skip 1 none [(0, 1), (0, 0)] 0 0 0 (by decide) (by decide)
      (by decide)).2 (by decide)⟩

end GarageQTPi
